import Mathlib

/-!
Verification development for the OpenClaw honeypot gateway.

The definitions below are a shallow embedding of the TypeScript source:

* `src/src/gateway/handlers.ts` — the attack-pattern classifier
  (`matchPatterns`, `analyzePayload`, `analyzeAndLogSuspicious`) and the
  method registry dispatcher (`handleRequest`);
* `src/src/gateway/protocol.ts` — frame shapes, `createErrorResponse`,
  `createSuccessResponse`, `generateHelloOk`, `generateTickEvent`, the
  WebSocket connection pipeline (`handleConnection`, `handleMessage`,
  `handleConnect`, `handleRequestFrame`), `getClientIp`, `hashCredential`;
* `src/src/gateway/server.ts` and `src/src/channels/index.ts` — the two
  HTTP-side `getClientIp` variants;
* the database query layer (`updateAttackerSession` upsert).

JavaScript regexes are not re-implemented: the classifier is parametrised
by a test oracle `test : String → String → Bool` standing for
`RegExp.test` applied to a pattern source; the pattern-source strings are
transcribed verbatim from the source.  Concrete counterexamples fix a
finite oracle whose values agree with the real regexes on the payloads
involved.  Persistence calls are modelled by their written rows; a call
raising is modelled by a per-call-site failure flag in `Store`.
-/

/-- Severity levels, ordered low < medium < high < critical. -/
inductive Severity where
  | low
  | medium
  | high
  | critical
deriving DecidableEq, Repr

def sevRank : Severity → Nat
  | .low => 0
  | .medium => 1
  | .high => 2
  | .critical => 3

/-- Maximum of two severities under low < medium < high < critical. -/
def sevMax (a b : Severity) : Severity :=
  if sevRank a < sevRank b then b else a

/-- SQL-injection pattern sources (handlers.ts `SQL_INJECTION_PATTERNS`). -/
def SQL_INJECTION_PATTERNS : List String :=
  [ "(\\b(SELECT|INSERT|UPDATE|DELETE|DROP|UNION|ALTER|CREATE|TRUNCATE)\\b.*\\b(FROM|INTO|SET|TABLE|DATABASE)\\b)"
  , "(\\b(OR|AND)\\b\\s+[\x27\"]?\\d+[\x27\"]?\\s*=\\s*[\x27\"]?\\d+[\x27\"]?)"
  , "(--|#|/\\*|\\*/)"
  , "(\\bOR\\b\\s+[\x27\"]?[a-z]+[\x27\"]?\\s*=\\s*[\x27\"]?[a-z]+[\x27\"]?)"
  , "(\x27\\s*(OR|AND)\\s*\x27)"
  , "(SLEEP\\s*\\(\\s*\\d+\\s*\\))"
  , "(BENCHMARK\\s*\\()"
  , "(LOAD_FILE\\s*\\()"
  , "(INTO\\s+(OUTFILE|DUMPFILE))"
  , "(INFORMATION_SCHEMA)"
  , "(CONCAT\\s*\\(.*SELECT)"
  , "(\\bEXEC\\b|\\bEXECUTE\\b)"
  , "(xp_cmdshell)" ]

/-- Command-injection pattern sources (handlers.ts `COMMAND_INJECTION_PATTERNS`). -/
def COMMAND_INJECTION_PATTERNS : List String :=
  [ "(;|\\||\x60|\\$\\(|\\$\\\x7b)"
  , "(\\b(cat|ls|pwd|whoami|id|uname|wget|curl|nc|netcat|bash|sh|python|perl|ruby|php)\\b)"
  , "(\\.\\.\\/)|(\\.\\.\\\\)"
  , "(\\/etc\\/passwd|\\/etc\\/shadow)"
  , "(\\||\\&\\&|\\|\\||;)\\s*(cat|ls|rm|mv|cp|wget|curl)"
  , "(\\$\\\x7b.*\\\x7d)"
  , "(>\\s*\\/)"
  , "(\\breverse\\b.*\\bshell\\b)"
  , "(\\/bin\\/bash|\\/bin\\/sh)"
  , "(eval\\s*\\()" ]

/-- XSS pattern sources (handlers.ts `XSS_PATTERNS`). -/
def XSS_PATTERNS : List String :=
  [ "(<script[^>]*>)"
  , "(javascript\\s*:)"
  , "(on\\w+\\s*=\\s*[\"\x27])"
  , "(<img[^>]+onerror)"
  , "(<svg[^>]+onload)"
  , "(<iframe)"
  , "(document\\.cookie)"
  , "(document\\.location)"
  , "(window\\.location)"
  , "(<body[^>]+onload)"
  , "(expression\\s*\\()"
  , "(vbscript\\s*:)" ]

/-- Path-traversal pattern sources (handlers.ts `PATH_TRAVERSAL_PATTERNS`). -/
def PATH_TRAVERSAL_PATTERNS : List String :=
  [ "(\\.\\.\\/)\x7b2,\x7d"
  , "(\\.\\.\\\\)\x7b2,\x7d"
  , "(%2e%2e%2f)"
  , "(%252e%252e%252f)"
  , "(%c0%ae)"
  , "(\\/etc\\/)"
  , "(\\/proc\\/)"
  , "(\\/var\\/log)"
  , "(C:\\\\Windows)"
  , "(\\/root\\/)" ]

/-- Prompt-injection pattern sources (handlers.ts `PROMPT_INJECTION_PATTERNS`). -/
def PROMPT_INJECTION_PATTERNS : List String :=
  [ "(ignore\\s+(previous|all|above)\\s+(instructions?|prompts?|rules?))"
  , "(disregard\\s+(your|the|all)\\s+(instructions?|guidelines?|rules?))"
  , "(you\\s+are\\s+now\\s+)"
  , "(from\\s+now\\s+on\\s+you\\s+(are|will|must))"
  , "(pretend\\s+(you\\s+are|to\\s+be))"
  , "(act\\s+as\\s+(if|a|an))"
  , "(new\\s+instructions?:)"
  , "(system\\s*:)"
  , "(ADMIN\\s*:)"
  , "(bypass\\s+(safety|content|filter))"
  , "(jailbreak)"
  , "(DAN\\s+mode)"
  , "(developer\\s+mode)"
  , "(do\\s+anything\\s+now)"
  , "(\\[SYSTEM\\])"
  , "(override\\s+(safety|security))" ]

/-- Scanner/recon pattern sources (handlers.ts `SCANNER_PATTERNS`). -/
def SCANNER_PATTERNS : List String :=
  [ "(nmap|nikto|sqlmap|burp|dirbuster|gobuster|wfuzz)"
  , "(\\/\\.git\\/)"
  , "(\\/\\.env)"
  , "(\\/wp-admin|\\/wp-content|\\/wp-includes)"
  , "(\\/phpmyadmin|\\/pma)"
  , "(\\/admin|\\/administrator|\\/manager)"
  , "(\\/backup|\\/bak|\\.bak|\\.backup)"
  , "(\\/config|\\/configuration)"
  , "(\\.sql|\\.db|\\.sqlite)"
  , "(\\/api\\/v\\d+\\/)"
  , "(\\/swagger|\\/api-docs|\\/openapi)"
  , "(robots\\.txt|sitemap\\.xml)" ]

/-- Exploit-attempt pattern sources (handlers.ts `EXPLOIT_PATTERNS`). -/
def EXPLOIT_PATTERNS : List String :=
  [ "(CVE-\\d\x7b4\x7d-\\d+)"
  , "(log4j|log4shell)"
  , "(spring4shell)"
  , "(shellshock)"
  , "(heartbleed)"
  , "(struts)"
  , "(jndi:ldap)"
  , "(jndi:rmi)"
  , "(jndi:dns)"
  , "(base64_decode\\s*\\()"
  , "(eval\\s*\\(\\s*base64)"
  , "(gopher:\\/\\/)"
  , "(dict:\\/\\/)"
  , "(file:\\/\\/)" ]

/-- Result of `analyzePayload` (handlers.ts `AnalysisResult`). -/
structure AnalysisResult where
  isSuspicious : Bool
  reasons : List String
  severity : Severity
  attackTypes : List String
deriving DecidableEq, Repr

/-- handlers.ts `matchPatterns`: first pattern of the list whose regex test
accepts the payload, as an `Option` over the pattern source. -/
def matchPatterns (test : String → String → Bool) (payload : String) :
    List String → Option String
  | [] => none
  | p :: rest => if test p payload then some p else matchPatterns test payload rest

/-- handlers.ts `analyzePayload`, translated block by block: the seven
category checks run in source order, each appending its reason and attack
type and updating `maxSeverity` exactly as the source conditionals do. -/
def analyzePayload (test : String → String → Bool) (payload : String) :
    AnalysisResult :=
  let sqlR := matchPatterns test payload SQL_INJECTION_PATTERNS
  let cmdR := matchPatterns test payload COMMAND_INJECTION_PATTERNS
  let xssR := matchPatterns test payload XSS_PATTERNS
  let pathR := matchPatterns test payload PATH_TRAVERSAL_PATTERNS
  let promptR := matchPatterns test payload PROMPT_INJECTION_PATTERNS
  let scanR := matchPatterns test payload SCANNER_PATTERNS
  let exploitR := matchPatterns test payload EXPLOIT_PATTERNS
  let acc1 : List String × List String × Severity :=
    match sqlR with
    | some p => ([ "SQL injection pattern detected: " ++ p ], [ "sql_injection" ], .high)
    | none => ([], [], .low)
  let acc2 : List String × List String × Severity :=
    match cmdR with
    | some p =>
        (acc1.1 ++ [ "Command injection pattern detected: " ++ p ],
         acc1.2.1 ++ [ "command_injection" ], .critical)
    | none => acc1
  let acc3 : List String × List String × Severity :=
    match xssR with
    | some p =>
        (acc2.1 ++ [ "XSS pattern detected: " ++ p ],
         acc2.2.1 ++ [ "xss" ],
         if acc2.2.2 = Severity.low then .medium else acc2.2.2)
    | none => acc2
  let acc4 : List String × List String × Severity :=
    match pathR with
    | some p =>
        (acc3.1 ++ [ "Path traversal pattern detected: " ++ p ],
         acc3.2.1 ++ [ "path_traversal" ],
         if acc3.2.2 = Severity.low ∨ acc3.2.2 = Severity.medium then .high else acc3.2.2)
    | none => acc3
  let acc5 : List String × List String × Severity :=
    match promptR with
    | some p =>
        (acc4.1 ++ [ "Prompt injection pattern detected: " ++ p ],
         acc4.2.1 ++ [ "prompt_injection" ],
         if acc4.2.2 = Severity.low then .medium else acc4.2.2)
    | none => acc4
  let acc6 : List String × List String × Severity :=
    match scanR with
    | some p =>
        (acc5.1 ++ [ "Scanner/recon pattern detected: " ++ p ],
         acc5.2.1 ++ [ "scan" ],
         if acc5.2.2 = Severity.low then .low else acc5.2.2)
    | none => acc5
  let acc7 : List String × List String × Severity :=
    match exploitR with
    | some p =>
        (acc6.1 ++ [ "Exploit pattern detected: " ++ p ],
         acc6.2.1 ++ [ "exploit" ], .critical)
    | none => acc6
  { isSuspicious := acc7.1.length != 0
    reasons := acc7.1
    severity := acc7.2.2
    attackTypes := acc7.2.1 }

/-- The seven classifier categories, in the order the source checks them. -/
inductive AttackCategory where
  | sql
  | cmd
  | xss
  | path
  | prompt
  | scan
  | exploit
deriving DecidableEq, Repr

def CATEGORY_ORDER : List AttackCategory :=
  [ .sql, .cmd, .xss, .path, .prompt, .scan, .exploit ]

def categoryName : AttackCategory → String
  | .sql => "sql_injection"
  | .cmd => "command_injection"
  | .xss => "xss"
  | .path => "path_traversal"
  | .prompt => "prompt_injection"
  | .scan => "scan"
  | .exploit => "exploit"

def categoryPatterns : AttackCategory → List String
  | .sql => SQL_INJECTION_PATTERNS
  | .cmd => COMMAND_INJECTION_PATTERNS
  | .xss => XSS_PATTERNS
  | .path => PATH_TRAVERSAL_PATTERNS
  | .prompt => PROMPT_INJECTION_PATTERNS
  | .scan => SCANNER_PATTERNS
  | .exploit => EXPLOIT_PATTERNS

/-- Base severity per category, as the spec tabulates it. -/
def baseSeverity : AttackCategory → Severity
  | .sql => .high
  | .cmd => .critical
  | .xss => .medium
  | .path => .high
  | .prompt => .medium
  | .scan => .low
  | .exploit => .critical

def categoryLabel : AttackCategory → String
  | .sql => "SQL injection pattern detected: "
  | .cmd => "Command injection pattern detected: "
  | .xss => "XSS pattern detected: "
  | .path => "Path traversal pattern detected: "
  | .prompt => "Prompt injection pattern detected: "
  | .scan => "Scanner/recon pattern detected: "
  | .exploit => "Exploit pattern detected: "

/-- Categories matched by a payload, in source check order. -/
def matchedCategories (test : String → String → Bool) (payload : String) :
    List AttackCategory :=
  CATEGORY_ORDER.filter
    (fun c => (matchPatterns test payload (categoryPatterns c)).isSome)

/-- Declarative classifier following the spec wording of section 4.1: the
seven category sets are checked independently, each matched category is
reported once with its first matching pattern source, and the overall
severity is the maximum of the matched categories' base severities. -/
def classifySpec (test : String → String → Bool) (payload : String) :
    AnalysisResult :=
  let matched := matchedCategories test payload
  { isSuspicious := matched.length != 0
    reasons := matched.map
      (fun c => categoryLabel c ++ (matchPatterns test payload (categoryPatterns c)).getD "")
    severity := matched.foldl (fun s c => sevMax s (baseSeverity c)) .low
    attackTypes := matched.map categoryName }

/-- Delta passed to the attacker-session upsert (queries.ts
`updateAttackerSession` `updates` argument).  A `none` flag models an
omitted (`undefined`) field. -/
structure SessionUpdate where
  incrementRequests : Bool := false
  incrementWsMessages : Bool := false
  incrementAuthAttempts : Bool := false
  incrementSuspicious : Bool := false
  isScanner : Option Bool := none
  isBruteforcer : Option Bool := none
  isExploiter : Option Bool := none
deriving DecidableEq, Repr

/-- Persisted per-IP aggregate row (schema `AttackerSession`; timestamps
are not modelled). -/
structure AttackerSession where
  ipAddress : String
  requestCount : Nat := 0
  wsMessageCount : Nat := 0
  authAttemptCount : Nat := 0
  suspiciousCount : Nat := 0
  isScanner : Bool := false
  isBruteforcer : Bool := false
  isExploiter : Bool := false
deriving DecidableEq, Repr

/-- queries.ts `updateAttackerSession`: prisma upsert keyed by IP.  The
`create` branch initialises counters from the delta and flags via
`?? false`; the `update` branch increments exactly the requested counters
and overwrites each flag that the delta carries (`undefined` leaves the
stored value). -/
def updateAttackerSession (existing : Option AttackerSession)
    (ipAddress : String) (u : SessionUpdate) : AttackerSession :=
  match existing with
  | none =>
      { ipAddress
        requestCount := if u.incrementRequests then 1 else 0
        wsMessageCount := if u.incrementWsMessages then 1 else 0
        authAttemptCount := if u.incrementAuthAttempts then 1 else 0
        suspiciousCount := if u.incrementSuspicious then 1 else 0
        isScanner := u.isScanner.getD false
        isBruteforcer := u.isBruteforcer.getD false
        isExploiter := u.isExploiter.getD false }
  | some s =>
      { s with
        requestCount := if u.incrementRequests then s.requestCount + 1 else s.requestCount
        wsMessageCount := if u.incrementWsMessages then s.wsMessageCount + 1 else s.wsMessageCount
        authAttemptCount := if u.incrementAuthAttempts then s.authAttemptCount + 1 else s.authAttemptCount
        suspiciousCount := if u.incrementSuspicious then s.suspiciousCount + 1 else s.suspiciousCount
        isScanner := match u.isScanner with | some b => b | none => s.isScanner
        isBruteforcer := match u.isBruteforcer with | some b => b | none => s.isBruteforcer
        isExploiter := match u.isExploiter with | some b => b | none => s.isExploiter }

/-- Fold a sequence of upsert calls for one IP over an optional existing row. -/
def applySessionUpdates (ipAddress : String) (s : AttackerSession)
    (us : List SessionUpdate) : AttackerSession :=
  us.foldl (fun acc u => updateAttackerSession (some acc) ipAddress u) s

/-- One `SuspiciousActivity` row as written by `logSuspiciousActivity`
(queries.ts); only the fields `analyzeAndLogSuspicious` populates. -/
structure SuspiciousRow where
  stype : String
  severity : Severity
  description : String
  payload : String
  ipAddress : String
  userAgent : Option String
  requestPath : Option String
  requestMethod : Option String
  connectionId : Option String
deriving DecidableEq, Repr

/-- Parameter record of handlers.ts `analyzeAndLogSuspicious`. -/
structure SuspiciousParams where
  payload : String
  ipAddress : String
  userAgent : Option String := none
  requestPath : Option String := none
  requestMethod : Option String := none
  connectionId : Option String := none

/-- Outcome of `analyzeAndLogSuspicious`: the analysis, the persisted
`SuspiciousActivity` rows and the session upsert delta (if any). -/
structure SuspiciousOutcome where
  result : AnalysisResult
  rows : List SuspiciousRow
  sessionUpdate : Option SessionUpdate

/-- handlers.ts `analyzeAndLogSuspicious`: if the payload is flagged, one
row per attack type is written, every row carrying `result.severity`, and
the attacker session is touched with `incrementSuspicious` and the two
behavioural flags computed from the attack-type list. -/
def analyzeAndLogSuspicious (test : String → String → Bool)
    (params : SuspiciousParams) : SuspiciousOutcome :=
  let result := analyzePayload test params.payload
  if result.isSuspicious then
    { result
      rows := result.attackTypes.map (fun t =>
        { stype := t
          severity := result.severity
          description := String.intercalate "; " result.reasons
          payload := params.payload.take 5000
          ipAddress := params.ipAddress
          userAgent := params.userAgent
          requestPath := params.requestPath
          requestMethod := params.requestMethod
          connectionId := params.connectionId })
      sessionUpdate := some
        { incrementSuspicious := true
          isScanner := some (result.attackTypes.contains "scan")
          isExploiter := some (result.attackTypes.contains "exploit" ||
            result.attackTypes.contains "command_injection") } }
  else
    { result, rows := [], sessionUpdate := none }

/-- Base severity keyed by the persisted category name, as the spec's
table states it; used to formalise claims about per-row severity. -/
def baseSeverityName (t : String) : Option Severity :=
  (CATEGORY_ORDER.find? (fun c => categoryName c = t)).map baseSeverity

/-- Overall severity the spec assigns to a payload: maximum of the matched
categories' base severities (`low` when nothing matches). -/
def overallSeverity (test : String → String → Bool) (payload : String) : Severity :=
  (matchedCategories test payload).foldl (fun s c => sevMax s (baseSeverity c)) .low

/-- Finite oracle agreeing with the JavaScript regexes on the two payloads
`"nmap"` (matches only the first scanner pattern) and
`"SELECT a FROM b"` (matches only the first SQL-injection pattern). -/
def oracleScanSql (pat payload : String) : Bool :=
  (payload == "nmap" && pat == "(nmap|nikto|sqlmap|burp|dirbuster|gobuster|wfuzz)") ||
  (payload == "SELECT a FROM b" &&
    pat == "(\\b(SELECT|INSERT|UPDATE|DELETE|DROP|UNION|ALTER|CREATE|TRUNCATE)\\b.*\\b(FROM|INTO|SET|TABLE|DATABASE)\\b)")

/-- Finite oracle agreeing with the JavaScript regexes on the payload
`"SELECT a FROM b;"`: the first SQL-injection pattern matches
(SELECT...FROM) and the first command-injection pattern matches (the
semicolon); no other pattern of any category matches. -/
def oracleSqlCmd (pat payload : String) : Bool :=
  payload == "SELECT a FROM b;" &&
    (pat == "(\\b(SELECT|INSERT|UPDATE|DELETE|DROP|UNION|ALTER|CREATE|TRUNCATE)\\b.*\\b(FROM|INTO|SET|TABLE|DATABASE)\\b)" ||
     pat == "(;|\\||\x60|\\$\\(|\\$\\\x7b)")

/-- protocol.ts `PROTOCOL_VERSION`. -/
def PROTOCOL_VERSION : Int := 1

/-- Configured fake product version (config.ts default `FAKE_VERSION`). -/
def fakeVersion : String := "2026.2.1"

/-- protocol.ts `GATEWAY_METHODS`. -/
def GATEWAY_METHODS : List String :=
  [ "health", "status", "logs.tail", "channels.status", "channels.logout",
    "usage.status", "usage.cost", "tts.status", "tts.providers",
    "config.get", "config.set", "config.apply", "config.patch", "config.schema",
    "exec.approvals.get", "exec.approvals.set",
    "wizard.start", "wizard.next", "wizard.cancel", "wizard.status",
    "talk.mode", "models.list", "agents.list",
    "skills.status", "skills.bins", "skills.install", "skills.update",
    "update.run", "voicewake.get", "voicewake.set",
    "sessions.list", "sessions.preview", "sessions.patch", "sessions.reset",
    "sessions.delete", "sessions.compact",
    "last-heartbeat", "set-heartbeats", "wake",
    "node.pair.request", "node.pair.list", "node.pair.approve",
    "node.pair.reject", "node.pair.verify",
    "device.pair.list", "device.pair.approve", "device.pair.reject",
    "device.token.rotate", "device.token.revoke",
    "node.rename", "node.list", "node.describe", "node.invoke",
    "node.invoke.result", "node.event",
    "cron.list", "cron.status", "cron.add", "cron.update", "cron.remove",
    "cron.run", "cron.runs",
    "system-presence", "system-event", "send", "agent", "agent.identity.get",
    "agent.wait", "browser.request", "chat.history", "chat.abort", "chat.send" ]

/-- protocol.ts `GATEWAY_EVENTS`. -/
def GATEWAY_EVENTS : List String :=
  [ "connect.challenge", "agent", "chat", "presence", "tick", "talk.mode",
    "shutdown", "health", "heartbeat", "cron",
    "node.pair.requested", "node.pair.resolved", "node.invoke.request",
    "device.pair.requested", "device.pair.resolved", "voicewake.changed",
    "exec.approval.requested", "exec.approval.resolved" ]

/-- protocol.ts `ErrorCodes`. -/
def ERROR_CODE_METHOD_NOT_FOUND : String := "method_not_found"

def ERROR_CODE_INTERNAL_ERROR : String := "internal_error"

/-- Error shape carried by a response frame (protocol.ts `ErrorShape`;
`details`, `retryable`, `retryAfterMs` are never set by the server). -/
structure ErrorShape where
  code : String
  message : String
deriving DecidableEq, Repr

/-- protocol.ts `RequestFrame` (the `params` payload is opaque here). -/
structure RequestFrame where
  id : String
  method : String
deriving DecidableEq, Repr

/-- protocol.ts `ResponseFrame`; the success payload is kept opaque. -/
structure ResponseFrame where
  rtype : String
  id : String
  ok : Bool
  payload : Option String
  error : Option ErrorShape
deriving DecidableEq, Repr

/-- protocol.ts `createErrorResponse`. -/
def createErrorResponse (id code message : String) : ResponseFrame :=
  { rtype := "res", id, ok := false, payload := none,
    error := some { code, message } }

/-- protocol.ts `createSuccessResponse`. -/
def createSuccessResponse (id : String) (payload : Option String) : ResponseFrame :=
  { rtype := "res", id, ok := true, payload, error := none }

/-- handlers.ts `HandlerContext`. -/
structure HandlerContext where
  connId : String
  clientId : Option String
  ipAddress : String
deriving DecidableEq, Repr

/-- A registered method handler; `Except Unit` models a handler that may
throw. -/
def Handler : Type := RequestFrame → HandlerContext → Except Unit ResponseFrame

/-- handlers.ts `handleRequest`: registry lookup, `method_not_found` for an
unregistered name, `internal_error` with a fixed generic message when the
handler throws. -/
def handleRequest (handlers : String → Option Handler)
    (request : RequestFrame) (context : HandlerContext) : ResponseFrame :=
  match handlers request.method with
  | none =>
      createErrorResponse request.id ERROR_CODE_METHOD_NOT_FOUND
        ("Method not found: " ++ request.method)
  | some h =>
      match h request context with
      | .ok r => r
      | .error _ =>
          createErrorResponse request.id ERROR_CODE_INTERNAL_ERROR
            "Internal server error"

/-- JavaScript truthiness of an optional string header/field: absent and
empty are falsy. -/
def jsTruthy (o : Option String) : Bool :=
  !(o.getD "").isEmpty

/-- First comma-separated entry of a forwarded-for header value, trimmed
(`ips.split(",")[0].trim()`). -/
def firstForwarded (s : String) : String :=
  ((s.splitOn ",").headD "").trim

/-- protocol.ts `getClientIp` (WebSocket upgrade): X-Forwarded-For first
entry, else X-Real-IP, else `req.socket?.remoteAddress ?? "unknown"`. -/
def wsGetClientIp (xff realIp remoteAddr : Option String) : String :=
  if jsTruthy xff then firstForwarded (xff.getD "")
  else if jsTruthy realIp then realIp.getD ""
  else remoteAddr.getD "unknown"

/-- server.ts `getClientIp` (HTTP middleware): X-Forwarded-For first entry,
else X-Real-IP, else `req.ip ?? req.socket?.remoteAddress ?? "unknown"`. -/
def serverGetClientIp (xff realIp reqIp remoteAddr : Option String) : String :=
  if jsTruthy xff then firstForwarded (xff.getD "")
  else if jsTruthy realIp then realIp.getD ""
  else reqIp.getD (remoteAddr.getD "unknown")

/-- channels/index.ts `getClientIp` (webhook handlers): X-Forwarded-For
first entry, else directly `req.ip ?? req.socket?.remoteAddress ??
"unknown"` — this variant never reads X-Real-IP. -/
def channelsGetClientIp (xff reqIp remoteAddr : Option String) : String :=
  if jsTruthy xff then firstForwarded (xff.getD "")
  else reqIp.getD (remoteAddr.getD "unknown")

/-- Modelled from the spec: the client-IP derivation rule of section 4.7,
"first value in X-Forwarded-For, then X-Real-IP, then the socket's remote
address", with the final fallback abstracted as `fallback`. -/
def specClientIp (xff realIp : Option String) (fallback : String) : String :=
  if jsTruthy xff then firstForwarded (xff.getD "")
  else if jsTruthy realIp then realIp.getD ""
  else fallback

/-- Two's-complement normalisation to a signed 32-bit value, as JavaScript
`| 0` / `& ` coercions produce. -/
def toInt32 (n : Int) : Int :=
  if n % 4294967296 < 2147483648 then n % 4294967296
  else n % 4294967296 - 4294967296

/-- One step of protocol.ts `hashCredential`'s loop:
`hash = (hash << 5) - hash + char; hash = hash & hash`. -/
def hashStep (h : Int) (c : Nat) : Int :=
  toInt32 (toInt32 (h * 32) - h + c)

/-- The 32-bit rolling hash accumulated over the credential's characters. -/
def rollingHash (s : String) : Int :=
  s.toList.foldl (fun h ch => hashStep h ch.toNat) 0

/-- Lowercase hexadecimal rendering of a natural number, as JavaScript
`Math.abs(hash).toString(16)`. -/
def natToHex (n : Nat) : String :=
  String.mk (Nat.toDigits 16 n)

/-- protocol.ts `hashCredential`: empty credential maps to the empty
string, otherwise `hash_` followed by the hex of the absolute value of the
32-bit rolling hash. -/
def hashCredential (credential : String) : String :=
  if credential = "" then ""
  else "hash_" ++ natToHex (rollingHash credential).natAbs

/-- Client block of the connect envelope (the fields the server reads). -/
structure ConnectClient where
  id : Option String := none
  version : Option String := none
  platform : Option String := none
deriving DecidableEq, Repr

/-- Auth block of the connect envelope. -/
structure ConnectAuth where
  token : Option String := none
  password : Option String := none
deriving DecidableEq, Repr

/-- The connect envelope (protocol.ts `ConnectParams`), reduced to the
fields `handleConnect` reads; `device` records whether a device block is
present. -/
structure ConnectEnvelope where
  minProtocol : Option Int := none
  maxProtocol : Option Int := none
  client : Option ConnectClient := none
  auth : Option ConnectAuth := none
  device : Bool := false
deriving DecidableEq, Repr

/-- Auth method detection of protocol.ts `handleConnect`:
`password` if truthy, else `token` if truthy, else `none`. -/
def detectedAuthMethod (env : ConnectEnvelope) : String :=
  if jsTruthy (env.auth.bind (·.password)) then "password"
  else if jsTruthy (env.auth.bind (·.token)) then "token"
  else "none"

/-- Credential selection of `handleConnect`:
`auth?.password || auth?.token || ""`. -/
def presentedCredential (env : ConnectEnvelope) : String :=
  if jsTruthy (env.auth.bind (·.password)) then (env.auth.bind (·.password)).getD ""
  else if jsTruthy (env.auth.bind (·.token)) then (env.auth.bind (·.token)).getD ""
  else ""

/-- Protocol-range check of `handleConnect` (`?? 1` defaults); the source
only logs a warning when this is true. -/
def protocolMismatch (env : ConnectEnvelope) : Bool :=
  decide (PROTOCOL_VERSION < env.minProtocol.getD 1) ||
  decide (PROTOCOL_VERSION > env.maxProtocol.getD 1)

/-- Auth block of the hello-ok envelope (minted for device handshakes). -/
structure HelloAuth where
  deviceToken : String
  role : String
  scopes : List String
  issuedAtMs : Nat
deriving DecidableEq, Repr

/-- The hello-ok envelope (protocol.ts `generateHelloOk` output, flattened). -/
structure HelloOkFrame where
  htype : String
  protocol : Int
  serverVersion : String
  serverConnId : String
  methods : List String
  events : List String
  maxPayload : Nat
  maxBufferedBytes : Nat
  tickIntervalMs : Nat
  authBlock : Option HelloAuth
deriving DecidableEq, Repr

/-- protocol.ts `generateHelloOk`. -/
def generateHelloOk (connId : String) : HelloOkFrame :=
  { htype := "hello-ok"
    protocol := PROTOCOL_VERSION
    serverVersion := fakeVersion
    serverConnId := connId
    methods := GATEWAY_METHODS
    events := GATEWAY_EVENTS
    maxPayload := 524288
    maxBufferedBytes := 1572864
    tickIntervalMs := 30000
    authBlock := none }

/-- Per-connection client state (protocol.ts `ClientState`; the tick timer
is modelled separately). -/
structure ClientState where
  connId : String
  dbConnectionId : String
  ipAddress : String
  authenticated : Bool
  clientId : Option String
deriving DecidableEq, Repr

/-- One persisted `WebSocketMessage` row (the fields written by
`logWebSocketMessage` calls in protocol.ts). -/
structure WsMessageRow where
  connectionId : String
  direction : String
  frameType : String
  method : Option String
  requestId : Option String
  raw : String
  isSuspicious : Bool
deriving DecidableEq, Repr

/-- One persisted `AuthAttempt` row (fields written by `handleConnect`). -/
structure AuthAttemptRow where
  connectionId : String
  ipAddress : String
  authMethod : String
  credential : String
  credentialRaw : String
  success : Bool
  clientId : Option String
  clientVersion : Option String
  platform : Option String
deriving DecidableEq, Repr

/-- A database write issued while serving a WebSocket connection. -/
inductive DbWrite where
  | wsMsg (row : WsMessageRow)
  | auth (row : AuthAttemptRow)
  | session (u : SessionUpdate)
  | connection (ipAddress connectionType : String)
deriving DecidableEq, Repr

/-- A frame sent on the socket. -/
inductive SentFrame where
  | hello (h : HelloOkFrame)
  | response (r : ResponseFrame)
deriving DecidableEq, Repr

/-- Per-call-site persistence failure flags: a `true` flag makes the
corresponding database call throw when it is reached. -/
structure Store where
  createConnFails : Bool := false
  logWsInFails : Bool := false
  logWsOutFails : Bool := false
  logAuthFails : Bool := false
  updateSessionFails : Bool := false
deriving DecidableEq, Repr

/-- The store in which every persistence call succeeds. -/
def okStore : Store := {}

/-- Outcome of handling one inbound WebSocket message: the state after the
handler returns, the frames sent, the rows actually persisted, and whether
the `ws.on("message")` wrapper caught (logged and swallowed) an error. -/
structure MsgOutcome where
  state : ClientState
  sent : List SentFrame
  writes : List DbWrite
  errorLogged : Bool
deriving DecidableEq, Repr

/-- The `AuthAttempt` row `handleConnect` writes for an envelope. -/
def connectAuthRow (st : ClientState) (env : ConnectEnvelope) : AuthAttemptRow :=
  { connectionId := st.dbConnectionId
    ipAddress := st.ipAddress
    authMethod := detectedAuthMethod env
    credential := hashCredential (presentedCredential env)
    credentialRaw := (presentedCredential env).take 100
    success := true
    clientId := env.client.bind (·.id)
    clientVersion := env.client.bind (·.version)
    platform := env.client.bind (·.platform) }

/-- The hello-ok frame `handleConnect` sends: `generateHelloOk` plus a
freshly minted admin device-auth block when the envelope carries a device
block. -/
def connectHelloOk (st : ClientState) (env : ConnectEnvelope)
    (freshTok : String) (now : Nat) : HelloOkFrame :=
  let h := generateHelloOk st.connId
  if env.device then
    { h with
      authBlock := some { deviceToken := freshTok, role := "admin", scopes := [ "*" ], issuedAtMs := now } }
  else h

/-- protocol.ts `handleConnect`, with persistence failures made explicit:
log the inbound connect frame, record the auth attempt (always
`success = true`), touch the attacker session, mark the state
authenticated, send hello-ok, log the outbound frame.  A failing call
aborts the rest (its exception is caught by the message handler). -/
def handleConnectM (store : Store) (freshTok : String) (now : Nat)
    (st : ClientState) (env : ConnectEnvelope) (raw : String)
    (analysis : AnalysisResult) : MsgOutcome :=
  let inRow : WsMessageRow :=
    { connectionId := st.dbConnectionId, direction := "inbound",
      frameType := "connect", method := none, requestId := none,
      raw := raw.take 10000, isSuspicious := analysis.isSuspicious }
  if store.logWsInFails then
    { state := st, sent := [], writes := [], errorLogged := true }
  else
    let st1 := { st with clientId := env.client.bind (·.id) }
    let authRow := connectAuthRow st env
    if store.logAuthFails then
      { state := st1, sent := [], writes := [ .wsMsg inRow ], errorLogged := true }
    else if store.updateSessionFails then
      { state := st1, sent := [], writes := [ .wsMsg inRow, .auth authRow ],
        errorLogged := true }
    else
      let st2 := { st1 with authenticated := true }
      let hello := connectHelloOk st env freshTok now
      let outRow : WsMessageRow :=
        { connectionId := st.dbConnectionId, direction := "outbound",
          frameType := "hello-ok", method := none, requestId := none,
          raw := "", isSuspicious := false }
      if store.logWsOutFails then
        { state := st2, sent := [ .hello hello ],
          writes := [ .wsMsg inRow, .auth authRow,
            .session { incrementAuthAttempts := true } ],
          errorLogged := true }
      else
        { state := st2, sent := [ .hello hello ],
          writes := [ .wsMsg inRow, .auth authRow,
            .session { incrementAuthAttempts := true }, .wsMsg outRow ],
          errorLogged := false }

/-- protocol.ts `handleRequestFrame` with explicit persistence failures:
log the inbound request (a failure here aborts before dispatch), dispatch
through the registry, send the response, log the outbound response. -/
def handleRequestFrameM (store : Store) (handlers : String → Option Handler)
    (st : ClientState) (rid rmethod raw : String)
    (analysis : AnalysisResult) : MsgOutcome :=
  let inRow : WsMessageRow :=
    { connectionId := st.dbConnectionId, direction := "inbound",
      frameType := "req", method := some rmethod, requestId := some rid,
      raw := raw.take 10000, isSuspicious := analysis.isSuspicious }
  if store.logWsInFails then
    { state := st, sent := [], writes := [], errorLogged := true }
  else
    let context : HandlerContext :=
      { connId := st.connId, clientId := st.clientId, ipAddress := st.ipAddress }
    let response := handleRequest handlers { id := rid, method := rmethod } context
    let outRow : WsMessageRow :=
      { connectionId := st.dbConnectionId, direction := "outbound",
        frameType := "res", method := some rmethod, requestId := some rid,
        raw := "", isSuspicious := false }
    if store.logWsOutFails then
      { state := st, sent := [ .response response ],
        writes := [ .wsMsg inRow ], errorLogged := true }
    else
      { state := st, sent := [ .response response ],
        writes := [ .wsMsg inRow, .wsMsg outRow ], errorLogged := false }

/-- Result of protocol.ts `parseFrame` on an already-parsed JSON value:
`request` for `type = "req"`, `nonRequest` for any other `type` field,
absence of the field parses to `none` at the call site. -/
inductive ParsedFrame where
  | request (id method : String)
  | nonRequest (ftype : String)
deriving DecidableEq, Repr

/-- One inbound WebSocket message: either text that fails `JSON.parse`, or
a JSON value together with its two readings — as a connect envelope (used
while unauthenticated) and as a protocol frame (`none` when `parseFrame`
rejects it). -/
inductive InMsg where
  | badJson (raw : String)
  | json (env : ConnectEnvelope) (frame : Option ParsedFrame) (raw : String)

/-- Row logged for a message that is not a request frame. -/
def plainLogRow (st : ClientState) (frameType : String) (raw : String)
    (analysis : AnalysisResult) : WsMessageRow :=
  { connectionId := st.dbConnectionId, direction := "inbound",
    frameType, method := none, requestId := none,
    raw := raw.take 10000, isSuspicious := analysis.isSuspicious }

/-- Outcome of a message path that only logs one inbound row. -/
def logOnlyOutcome (store : Store) (st : ClientState) (row : WsMessageRow) :
    MsgOutcome :=
  if store.logWsInFails then
    { state := st, sent := [], writes := [], errorLogged := true }
  else
    { state := st, sent := [], writes := [ .wsMsg row ], errorLogged := false }

/-- protocol.ts `handleMessage` wrapped by the `ws.on("message")` handler:
analyze the raw text, log invalid JSON, route the first JSON message of an
unauthenticated connection to `handleConnect`, dispatch request frames,
log all other frames.  Exceptions from persistence calls are caught by the
wrapper and recorded in `errorLogged`. -/
def processMessage (store : Store) (handlers : String → Option Handler)
    (test : String → String → Bool) (freshTok : String) (now : Nat)
    (st : ClientState) (msg : InMsg) : MsgOutcome :=
  match msg with
  | .badJson raw =>
      logOnlyOutcome store st (plainLogRow st "invalid" raw (analyzePayload test raw))
  | .json env frame raw =>
      let analysis := analyzePayload test raw
      if st.authenticated = false then
        handleConnectM store freshTok now st env raw analysis
      else
        match frame with
        | none => logOnlyOutcome store st (plainLogRow st "invalid" raw analysis)
        | some (.request rid rmethod) =>
            handleRequestFrameM store handlers st rid rmethod raw analysis
        | some (.nonRequest t) =>
            logOnlyOutcome store st (plainLogRow st t raw analysis)

/-- protocol.ts `handleConnection` connection-open effects: the
`Connection` row (with fallback id on failure, the error being caught
locally) and the `incrementWsMessages` session touch. -/
def openConnection (store : Store) (connId dbId ip : String) :
    ClientState × List DbWrite :=
  let dbConnectionId := if store.createConnFails then connId else dbId
  let writes :=
    (if store.createConnFails then [] else [ DbWrite.connection ip "websocket" ]) ++
    [ DbWrite.session { incrementWsMessages := true } ]
  ({ connId, dbConnectionId, ipAddress := ip, authenticated := false,
     clientId := none }, writes)

/-- Serve a list of inbound messages from a given state, accumulating the
frames sent and the rows written. -/
def serveMsgs (store : Store) (handlers : String → Option Handler)
    (test : String → String → Bool) (freshTok : String) (now : Nat)
    (st : ClientState) : List InMsg → ClientState × List SentFrame × List DbWrite
  | [] => (st, [], [])
  | m :: ms =>
      let o := processMessage store handlers test freshTok now st m
      let rest := serveMsgs store handlers test freshTok now o.state ms
      (rest.1, o.sent ++ rest.2.1, o.writes ++ rest.2.2)

/-- Serve a whole WebSocket connection: open, then feed the inbound
messages through `processMessage`. -/
def runConnection (store : Store) (handlers : String → Option Handler)
    (test : String → String → Bool) (freshTok : String) (now : Nat)
    (connId dbId ip : String) (msgs : List InMsg) :
    ClientState × List SentFrame × List DbWrite :=
  let (st0, w0) := openConnection store connId dbId ip
  let r := serveMsgs store handlers test freshTok now st0 msgs
  (r.1, r.2.1, w0 ++ r.2.2)

/-- Session-update deltas among a list of database writes. -/
def sessionWrites (ws : List DbWrite) : List SessionUpdate :=
  ws.filterMap (fun w => match w with | .session u => some u | _ => none)

/-- Auth-attempt rows among a list of database writes. -/
def authWrites (ws : List DbWrite) : List AuthAttemptRow :=
  ws.filterMap (fun w => match w with | .auth r => some r | _ => none)

/-- State of one connection's tick machinery: the per-connection `seq`
counter, whether the socket is currently `OPEN`, and whether the interval
timer is still installed. -/
structure TickState where
  seq : Nat
  isOpen : Bool
  timerActive : Bool
deriving DecidableEq, Repr

/-- Event frame shape of protocol.ts `EventFrame`, specialised to the tick
payload `{ ts }`. -/
structure TickFrame where
  etype : String
  event : String
  ts : Nat
  seq : Nat
deriving DecidableEq, Repr

/-- protocol.ts `generateTickEvent`. -/
def generateTickEvent (seq now : Nat) : TickFrame :=
  { etype := "event", event := "tick", ts := now, seq }

/-- setInterval period of the tick timer (protocol.ts `handleConnect`). -/
def TICK_INTERVAL_MS : Nat := 30000

/-- Events affecting one connection's tick timer: the interval callback
firing, the socket leaving the OPEN state, and the `close` handler running
(`clearInterval`). -/
inductive TickEvent where
  | fire (now : Nat)
  | sockNotOpen
  | closeEvt
deriving DecidableEq, Repr

/-- One step of the tick machinery: the interval callback emits
`generateTickEvent(state.seq++)` only when the timer is installed and the
socket is OPEN; the close handler clears the timer. -/
def tickStep (st : TickState) (e : TickEvent) : TickState × List TickFrame :=
  match e with
  | .fire now =>
      if st.timerActive && st.isOpen then
        ({ st with seq := st.seq + 1 }, [ generateTickEvent st.seq now ])
      else
        (st, [])
  | .sockNotOpen => ({ st with isOpen := false }, [])
  | .closeEvt => ({ st with isOpen := false, timerActive := false }, [])

/-- Run a sequence of tick events, accumulating emitted frames. -/
def runTicks (st : TickState) : List TickEvent → TickState × List TickFrame
  | [] => (st, [])
  | e :: es =>
      let r := tickStep st e
      let rest := runTicks r.1 es
      (rest.1, r.2 ++ rest.2)

/-- Whether an inbound message parsed as JSON (and therefore, while the
connection is NEW, is treated as the connect envelope). -/
def isJsonMsg : InMsg → Bool
  | .badJson _ => false
  | .json _ _ _ => true

/-- The attacker-session deltas written while serving one WebSocket
connection whose persistence layer never fails. -/
def wsConnectionSessionWrites (handlers : String → Option Handler)
    (test : String → String → Bool) (freshTok : String) (now : Nat)
    (connId dbId ip : String) (msgs : List InMsg) : List SessionUpdate :=
  sessionWrites (runConnection okStore handlers test freshTok now connId dbId ip msgs).2.2

/-- A registry with a single method `boom` whose handler throws. -/
def boomHandler : Handler := fun _ _ => .error ()

def throwingHandlers : String → Option Handler :=
  fun m => if m = "boom" then some boomHandler else none

/-- The empty method registry. -/
def emptyHandlers : String → Option Handler := fun _ => none

/-- A test oracle under which no pattern matches. -/
def oracleNone : String → String → Bool := fun _ _ => false

/-- A store in which the `logWebSocketMessage` call for inbound frames
throws. -/
def badStore : Store := { logWsInFails := true }

/-- Concrete connection states used by witnesses and counterexamples. -/
def stNewDemo : ClientState :=
  { connId := "c1", dbConnectionId := "db1", ipAddress := "203.0.113.7",
    authenticated := false, clientId := none }

def stAuthDemo : ClientState :=
  { connId := "c1", dbConnectionId := "db1", ipAddress := "203.0.113.7",
    authenticated := true, clientId := none }

/-- A connect envelope whose protocol range `[5, 9]` excludes the server's
`PROTOCOL_VERSION = 1`. -/
def envMismatch : ConnectEnvelope :=
  { minProtocol := some 5, maxProtocol := some 9 }

/-- A connect envelope with no auth block at all. -/
def envNoAuth : ConnectEnvelope := {}

/-- A connect envelope presenting the token `abc`. -/
def envTokenAbc : ConnectEnvelope :=
  { auth := some { token := some "abc" } }

/-- Session delta produced by analysing the scanner payload `nmap`. -/
def demoScanUpdate : SessionUpdate :=
  ((analyzeAndLogSuspicious oracleScanSql
    { payload := "nmap", ipAddress := "203.0.113.7" }).sessionUpdate).getD {}

/-- Session delta produced by analysing the SQL payload `SELECT a FROM b`. -/
def demoSqlUpdate : SessionUpdate :=
  ((analyzeAndLogSuspicious oracleScanSql
    { payload := "SELECT a FROM b", ipAddress := "203.0.113.7" }).sessionUpdate).getD {}

/-- Attacker-session row after the scanner payload only. -/
def demoSession1 : AttackerSession :=
  updateAttackerSession none "203.0.113.7" demoScanUpdate

/-- Attacker-session row after the scanner payload and then the SQL payload. -/
def demoSession2 : AttackerSession :=
  updateAttackerSession (some demoSession1) "203.0.113.7" demoSqlUpdate

/-- Rows persisted for the payload matching both SQL injection and command
injection. -/
def demoSqlCmdRows : List SuspiciousRow :=
  (analyzeAndLogSuspicious oracleSqlCmd
    { payload := "SELECT a FROM b;", ipAddress := "198.51.100.9" }).rows

set_option maxHeartbeats 3200000 in
theorem analyzePayload_eq_classifySpec (test : String → String → Bool)
    (payload : String) : analyzePayload test payload = classifySpec test payload := by
  unfold analyzePayload classifySpec matchedCategories
  rcases h1 : matchPatterns test payload SQL_INJECTION_PATTERNS with _ | p1 <;>
    rcases h2 : matchPatterns test payload COMMAND_INJECTION_PATTERNS with _ | p2 <;>
      rcases h3 : matchPatterns test payload XSS_PATTERNS with _ | p3 <;>
        rcases h4 : matchPatterns test payload PATH_TRAVERSAL_PATTERNS with _ | p4 <;>
          rcases h5 : matchPatterns test payload PROMPT_INJECTION_PATTERNS with _ | p5 <;>
            rcases h6 : matchPatterns test payload SCANNER_PATTERNS with _ | p6 <;>
              rcases h7 : matchPatterns test payload EXPLOIT_PATTERNS with _ | p7 <;>
                simp only [h1, h2, h3, h4, h5, h6, h7, CATEGORY_ORDER, categoryPatterns,
                  List.filter_cons, List.filter_nil, Option.isSome_some, Option.isSome_none,
                  List.map_cons, List.map_nil, List.foldl_cons, List.foldl_nil,
                  categoryLabel, categoryName, baseSeverity, Option.getD_some,
                  List.nil_append, List.cons_append, List.append_nil, sevMax, sevRank,
                  if_true, if_false, reduceIte] <;>
                simp [h1, h2, h3, h4, h5, h6, h7, categoryName]

theorem applySessionUpdates_cons (ip : String) (s : AttackerSession)
    (u : SessionUpdate) (us : List SessionUpdate) :
    applySessionUpdates ip s (u :: us) =
      applySessionUpdates ip (updateAttackerSession (some s) ip u) us := rfl

theorem sticky_isScanner (ip : String) (us : List SessionUpdate) :
    ∀ s : AttackerSession, s.isScanner = true →
      (∀ u ∈ us, u.isScanner ≠ some false) →
      (applySessionUpdates ip s us).isScanner = true := by
  induction us with
  | nil => intro s hs _; simpa [applySessionUpdates] using hs
  | cons u rest ih =>
      intro s hs h
      rw [applySessionUpdates_cons]
      refine ih _ ?_ (fun v hv => h v (by simp [hv]))
      have hu : u.isScanner ≠ some false := h u (by simp)
      cases hub : u.isScanner with
      | none => simpa [updateAttackerSession, hub] using hs
      | some b =>
          cases b with
          | false => exact absurd hub hu
          | true => simp [updateAttackerSession, hub]

theorem sticky_isBruteforcer (ip : String) (us : List SessionUpdate) :
    ∀ s : AttackerSession, s.isBruteforcer = true →
      (∀ u ∈ us, u.isBruteforcer ≠ some false) →
      (applySessionUpdates ip s us).isBruteforcer = true := by
  induction us with
  | nil => intro s hs _; simpa [applySessionUpdates] using hs
  | cons u rest ih =>
      intro s hs h
      rw [applySessionUpdates_cons]
      refine ih _ ?_ (fun v hv => h v (by simp [hv]))
      have hu : u.isBruteforcer ≠ some false := h u (by simp)
      cases hub : u.isBruteforcer with
      | none => simpa [updateAttackerSession, hub] using hs
      | some b =>
          cases b with
          | false => exact absurd hub hu
          | true => simp [updateAttackerSession, hub]

theorem sticky_isExploiter (ip : String) (us : List SessionUpdate) :
    ∀ s : AttackerSession, s.isExploiter = true →
      (∀ u ∈ us, u.isExploiter ≠ some false) →
      (applySessionUpdates ip s us).isExploiter = true := by
  induction us with
  | nil => intro s hs _; simpa [applySessionUpdates] using hs
  | cons u rest ih =>
      intro s hs h
      rw [applySessionUpdates_cons]
      refine ih _ ?_ (fun v hv => h v (by simp [hv]))
      have hu : u.isExploiter ≠ some false := h u (by simp)
      cases hub : u.isExploiter with
      | none => simpa [updateAttackerSession, hub] using hs
      | some b =>
          cases b with
          | false => exact absurd hub hu
          | true => simp [updateAttackerSession, hub]

/-- Claim C1 counterexample: the flags are not sticky.  The oracle agrees
with the JavaScript regexes on both payloads.  The scanner payload `nmap`
sets `isScanner` to true; a later SQL-injection payload from the same IP
passes `isScanner: false` to the upsert (the analyzer always passes a
concrete boolean), which overwrites the stored true back to false. -/
theorem claim_C1_counterexample :
    demoScanUpdate.isScanner = some true ∧
    demoSession1.isScanner = true ∧
    demoSqlUpdate.isScanner = some false ∧
    demoSession2.isScanner = false := by decide

/-- Claim C1 (amended): a flag set to true stays true across any later
sequence of upsert calls in which no call explicitly passes that flag as
false; a call passing `false` (as `analyzeAndLogSuspicious` does whenever
its payload does not match the corresponding categories) overwrites it. -/
theorem claim_C1_amended (ip : String) (s : AttackerSession)
    (us : List SessionUpdate) :
    (s.isScanner = true → (∀ u ∈ us, u.isScanner ≠ some false) →
      (applySessionUpdates ip s us).isScanner = true) ∧
    (s.isBruteforcer = true → (∀ u ∈ us, u.isBruteforcer ≠ some false) →
      (applySessionUpdates ip s us).isBruteforcer = true) ∧
    (s.isExploiter = true → (∀ u ∈ us, u.isExploiter ≠ some false) →
      (applySessionUpdates ip s us).isExploiter = true) :=
  ⟨fun hs h => sticky_isScanner ip us s hs h,
   fun hs h => sticky_isBruteforcer ip us s hs h,
   fun hs h => sticky_isExploiter ip us s hs h⟩

/-- Witness for the amended C1 theorem at a concrete input: a second
scanner touch (which passes `isScanner: some true`) keeps the flag. -/
theorem claim_C1_amended_witness :
    (demoSession1.isScanner = true ∧
      (∀ u ∈ [ demoScanUpdate ], u.isScanner ≠ some false)) ∧
    (applySessionUpdates "203.0.113.7" demoSession1 [ demoScanUpdate ]).isScanner = true :=
  ⟨⟨by decide, by decide⟩,
    (claim_C1_amended "203.0.113.7" demoSession1 [ demoScanUpdate ]).1
      (by decide) (by decide)⟩

/-- Claim C2 counterexample: for the payload `SELECT a FROM b;` (matching
the SQL-injection and command-injection categories; the oracle agrees with
the JavaScript regexes there), both persisted rows carry the overall
severity `critical`, so the `sql_injection` row does not carry its base
severity `high`. -/
theorem claim_C2_counterexample :
    (¬ ∀ r ∈ demoSqlCmdRows, some r.severity = baseSeverityName r.stype) ∧
    demoSqlCmdRows.map (fun r => (r.stype, r.severity)) =
      [ ("sql_injection", Severity.critical), ("command_injection", Severity.critical) ] ∧
    baseSeverityName "sql_injection" = some Severity.high := by decide

/-- Claim C2 (amended): one `SuspiciousActivity` row is persisted per
matched category, but every row carries the overall severity of the
analysis — the maximum of the matched categories' base severities — rather
than its own category's base severity (the two coincide only when the
maximum equals that base, e.g. when a single category matches). -/
theorem claim_C2_amended (test : String → String → Bool)
    (params : SuspiciousParams) :
    (analyzeAndLogSuspicious test params).rows.map (fun r => (r.stype, r.severity)) =
      (matchedCategories test params.payload).map
        (fun c => (categoryName c, overallSeverity test params.payload)) := by
  have h := analyzePayload_eq_classifySpec test params.payload
  unfold analyzeAndLogSuspicious
  rw [h]
  by_cases hm : matchedCategories test params.payload = []
  · simp [classifySpec, hm]
  · have hlen : (matchedCategories test params.payload).length ≠ 0 := by
      simpa [List.length_eq_zero] using hm
    simp [classifySpec, overallSeverity, hlen, List.map_map, Function.comp]

/-- Claim C5: the sequential seven-block analyzer is exactly the
declarative classifier — independent category checks, one report per
category carrying the first matching pattern source, overall severity the
maximum of the matched base severities — and no category is reported
twice. -/
theorem claim_C5_theorem (test : String → String → Bool) (payload : String) :
    analyzePayload test payload = classifySpec test payload ∧
    (analyzePayload test payload).attackTypes.Nodup := by
  refine ⟨analyzePayload_eq_classifySpec test payload, ?_⟩
  rw [analyzePayload_eq_classifySpec]
  have hsub : (matchedCategories test payload).Sublist CATEGORY_ORDER :=
    List.filter_sublist _
  have hmap : ((matchedCategories test payload).map categoryName).Sublist
      (CATEGORY_ORDER.map categoryName) := List.Sublist.map categoryName hsub
  simpa [classifySpec] using List.Sublist.nodup hmap (by decide)

/-- Claim C6: an unregistered method yields an `ok = false` response with
code `method_not_found`, a throwing handler yields `ok = false` with code
`internal_error` and the fixed generic message `Internal server error`,
and both responses carry the request's id. -/
theorem claim_C6_theorem (handlers : String → Option Handler)
    (req : RequestFrame) (context : HandlerContext) :
    (handlers req.method = none →
      handleRequest handlers req context =
        { rtype := "res", id := req.id, ok := false, payload := none,
          error := some { code := ERROR_CODE_METHOD_NOT_FOUND,
                          message := "Method not found: " ++ req.method } }) ∧
    (∀ h : Handler, handlers req.method = some h → h req context = .error () →
      handleRequest handlers req context =
        { rtype := "res", id := req.id, ok := false, payload := none,
          error := some { code := ERROR_CODE_INTERNAL_ERROR,
                          message := "Internal server error" } }) := by
  constructor
  · intro hn
    simp [handleRequest, hn, createErrorResponse]
  · intro h hs he
    simp [handleRequest, hs, he, createErrorResponse]

/-- Witness for C6 at a concrete registry: an unknown method name and a
registered handler that throws. -/
theorem claim_C6_witness :
    (throwingHandlers "nope" = none ∧
      handleRequest throwingHandlers { id := "r1", method := "nope" }
          { connId := "c1", clientId := none, ipAddress := "203.0.113.7" } =
        { rtype := "res", id := "r1", ok := false, payload := none,
          error := some { code := ERROR_CODE_METHOD_NOT_FOUND,
                          message := "Method not found: " ++ "nope" } }) ∧
    (throwingHandlers "boom" = some boomHandler ∧
      boomHandler { id := "r2", method := "boom" }
          { connId := "c1", clientId := none, ipAddress := "203.0.113.7" } = .error () ∧
      handleRequest throwingHandlers { id := "r2", method := "boom" }
          { connId := "c1", clientId := none, ipAddress := "203.0.113.7" } =
        { rtype := "res", id := "r2", ok := false, payload := none,
          error := some { code := ERROR_CODE_INTERNAL_ERROR,
                          message := "Internal server error" } }) :=
  ⟨⟨rfl, (claim_C6_theorem throwingHandlers { id := "r1", method := "nope" }
      { connId := "c1", clientId := none, ipAddress := "203.0.113.7" }).1 rfl⟩,
   ⟨rfl, rfl, (claim_C6_theorem throwingHandlers { id := "r2", method := "boom" }
      { connId := "c1", clientId := none, ipAddress := "203.0.113.7" }).2
        boomHandler rfl rfl⟩⟩

/-- Claim C7 counterexample: on a channel-webhook request with no
X-Forwarded-For, X-Real-IP `198.51.100.77` and socket address
`203.0.113.50`, the channel handler records the socket address — its IP
derivation never reads X-Real-IP — while the claimed rule yields the
X-Real-IP value. -/
theorem claim_C7_counterexample :
    channelsGetClientIp none (some "203.0.113.50") (some "203.0.113.50") =
      "203.0.113.50" ∧
    specClientIp none (some "198.51.100.77") "203.0.113.50" = "198.51.100.77" ∧
    ("203.0.113.50" : String) ≠ "198.51.100.77" := by decide

/-- Claim C7 (amended): the WebSocket-upgrade and gateway-HTTP derivations
follow X-Forwarded-For (first entry, when present and non-empty), then
X-Real-IP, then the socket fallback (the HTTP middleware prefers Express's
`req.ip` in the final fallback); the channel-webhook derivation skips
X-Real-IP and falls back directly to `req.ip`/socket. -/
theorem claim_C7_amended (xff realIp reqIp remoteAddr : Option String) :
    wsGetClientIp xff realIp remoteAddr =
      specClientIp xff realIp (remoteAddr.getD "unknown") ∧
    serverGetClientIp xff realIp reqIp remoteAddr =
      specClientIp xff realIp (reqIp.getD (remoteAddr.getD "unknown")) ∧
    channelsGetClientIp xff reqIp remoteAddr =
      specClientIp xff none (reqIp.getD (remoteAddr.getD "unknown")) :=
  ⟨rfl, rfl, rfl⟩

/-- Claim C3 counterexample: on an authenticated connection, when the
inbound `logWebSocketMessage` call throws, the error is caught (and
logged) by the connection's message handler, but no response frame is sent
for the request — with a working store the same request is answered. -/
theorem claim_C3_counterexample :
    (processMessage badStore emptyHandlers oracleNone "tok" 0 stAuthDemo
        (.json {} (some (.request "r1" "health")) "x")).sent = [] ∧
    (processMessage badStore emptyHandlers oracleNone "tok" 0 stAuthDemo
        (.json {} (some (.request "r1" "health")) "x")).errorLogged = true ∧
    (processMessage okStore emptyHandlers oracleNone "tok" 0 stAuthDemo
        (.json {} (some (.request "r1" "health")) "x")).sent =
      [ .response (createErrorResponse "r1" ERROR_CODE_METHOD_NOT_FOUND
          ("Method not found: " ++ "health")) ] := by decide

/-- Claim C3 (amended): persistence errors raised while handling a request
frame are logged and swallowed at the connection's message handler and
never alter the content of a response that is sent; a failure of a
persistence call made after the send (the outbound log) leaves the
response unaffected; but a failure of the inbound-message persistence call
aborts processing before dispatch, so no response frame is sent for that
request. -/
theorem claim_C3_amended (store : Store) (handlers : String → Option Handler)
    (test : String → String → Bool) (freshTok : String) (now : Nat)
    (st : ClientState) (env : ConnectEnvelope) (rid rmethod raw : String)
    (hauth : st.authenticated = true) :
    (store.logWsInFails = true →
      (processMessage store handlers test freshTok now st
          (.json env (some (.request rid rmethod)) raw)).sent = [] ∧
      (processMessage store handlers test freshTok now st
          (.json env (some (.request rid rmethod)) raw)).errorLogged = true) ∧
    (store.logWsInFails = false →
      (processMessage store handlers test freshTok now st
          (.json env (some (.request rid rmethod)) raw)).sent =
        [ .response (handleRequest handlers { id := rid, method := rmethod }
            { connId := st.connId, clientId := st.clientId, ipAddress := st.ipAddress }) ] ∧
      (processMessage store handlers test freshTok now st
          (.json env (some (.request rid rmethod)) raw)).errorLogged =
        store.logWsOutFails) := by
  cases hIn : store.logWsInFails <;> cases hOut : store.logWsOutFails <;>
    simp [processMessage, handleRequestFrameM, hauth, hIn, hOut]

/-- Witness for the amended C3 theorem: concrete authenticated state and a
store whose inbound message log throws. -/
theorem claim_C3_amended_witness :
    stAuthDemo.authenticated = true ∧ badStore.logWsInFails = true ∧
    (processMessage badStore emptyHandlers oracleNone "tok" 0 stAuthDemo
        (.json {} (some (.request "r1" "health")) "x")).sent = [] :=
  ⟨rfl, rfl,
    ((claim_C3_amended badStore emptyHandlers oracleNone "tok" 0 stAuthDemo {}
        "r1" "health" "x" rfl).1 rfl).1⟩

/-- Claim C4: any JSON first message authenticates the connection — the
state transitions to AUTHENTICATED, exactly one `AuthAttempt` row is
written with `success = true` and method `password`/`token`/`none` by
presence (JavaScript truthiness) of the credentials, and a `hello-ok`
envelope with the server's protocol version is sent.  The statement is
universal over the envelope, so it covers in particular every envelope
whose `[minProtocol, maxProtocol]` range excludes the server's protocol
version 1: no path rejects the client. -/
theorem claim_C4_theorem (handlers : String → Option Handler)
    (test : String → String → Bool) (freshTok : String) (now : Nat)
    (st : ClientState) (env : ConnectEnvelope) (frame : Option ParsedFrame)
    (raw : String) (hnew : st.authenticated = false) :
    (processMessage okStore handlers test freshTok now st
        (.json env frame raw)).state.authenticated = true ∧
    authWrites (processMessage okStore handlers test freshTok now st
        (.json env frame raw)).writes = [ connectAuthRow st env ] ∧
    (connectAuthRow st env).success = true ∧
    (connectAuthRow st env).authMethod =
      (if jsTruthy (env.auth.bind (·.password)) then "password"
       else if jsTruthy (env.auth.bind (·.token)) then "token" else "none") ∧
    (processMessage okStore handlers test freshTok now st
        (.json env frame raw)).sent = [ .hello (connectHelloOk st env freshTok now) ] ∧
    (connectHelloOk st env freshTok now).htype = "hello-ok" ∧
    (connectHelloOk st env freshTok now).protocol = PROTOCOL_VERSION := by
  cases hd : env.device <;>
    simp [processMessage, hnew, handleConnectM, okStore, authWrites,
      connectAuthRow, detectedAuthMethod, connectHelloOk, generateHelloOk, hd,
      List.filterMap]

/-- Witness for C4 at a concrete input whose protocol range `[5, 9]`
excludes the server's version 1: the connection is still authenticated. -/
theorem claim_C4_witness :
    stNewDemo.authenticated = false ∧ protocolMismatch envMismatch = true ∧
    (processMessage okStore emptyHandlers oracleNone "tok" 0 stNewDemo
        (.json envMismatch none "x")).state.authenticated = true :=
  ⟨rfl, by decide,
    (claim_C4_theorem emptyHandlers oracleNone "tok" 0 stNewDemo envMismatch
        none "x" rfl).1⟩

theorem toInt32_bounds (n : Int) :
    -2147483648 ≤ toInt32 n ∧ toInt32 n < 2147483648 := by
  unfold toInt32
  have h0 : (0:Int) ≤ n % 4294967296 :=
    Int.emod_nonneg n (by norm_num)
  have h1 : n % 4294967296 < 4294967296 :=
    Int.emod_lt_of_pos n (by norm_num)
  constructor <;> split <;> omega

theorem rollingHash_foldl_bounds (l : List Char) :
    ∀ h : Int, -2147483648 ≤ h → h < 2147483648 →
      -2147483648 ≤ l.foldl (fun h ch => hashStep h ch.toNat) h ∧
      l.foldl (fun h ch => hashStep h ch.toNat) h < 2147483648 := by
  induction l with
  | nil => intro h hl hu; exact ⟨hl, hu⟩
  | cons c cs ih =>
      intro h hl hu
      rw [List.foldl_cons]
      exact ih _ (toInt32_bounds _).1 (toInt32_bounds _).2

/-- The rolling hash always fits in a signed 32-bit integer. -/
theorem rollingHash_bounds (s : String) :
    -2147483648 ≤ rollingHash s ∧ rollingHash s < 2147483648 := by
  unfold rollingHash
  exact rollingHash_foldl_bounds s.toList 0 (by norm_num) (by norm_num)

set_option maxRecDepth 40000 in
/-- Claim C8 counterexample: a connect envelope with no credentials still
writes an `AuthAttempt` row, and its stored fingerprint is the empty
string — not a `hash_`-prefixed value. -/
theorem claim_C8_counterexample :
    authWrites ((processMessage okStore emptyHandlers oracleNone "tok" 0 stNewDemo
        (.json envNoAuth none "\x7b\x7d")).writes) =
      [ connectAuthRow stNewDemo envNoAuth ] ∧
    (connectAuthRow stNewDemo envNoAuth).credential = "" ∧
    ((connectAuthRow stNewDemo envNoAuth).credential.startsWith "hash_") = false := by
  decide

set_option maxRecDepth 40000 in
/-- Claim C8 (amended): whenever the presented credential is non-empty,
the stored fingerprint is `hash_` followed by the lowercase hexadecimal of
the absolute value of the 32-bit rolling hash (which always fits in a
signed 32-bit integer), and the raw credential prefix of at most 100
characters is stored alongside; an empty or absent credential stores the
empty-string fingerprint instead. -/
theorem claim_C8_amended (st : ClientState) (env : ConnectEnvelope)
    (hcred : presentedCredential env ≠ "") :
    (connectAuthRow st env).credential =
      "hash_" ++ natToHex (rollingHash (presentedCredential env)).natAbs ∧
    (connectAuthRow st env).credentialRaw = (presentedCredential env).take 100 ∧
    -2147483648 ≤ rollingHash (presentedCredential env) ∧
    rollingHash (presentedCredential env) < 2147483648 := by
  refine ⟨?_, ?_, (rollingHash_bounds _).1, (rollingHash_bounds _).2⟩
  · simp [connectAuthRow, hashCredential, hcred]
  · simp only [connectAuthRow]

set_option maxRecDepth 40000 in
/-- Witness for the amended C8 theorem with the token `abc`. -/
theorem claim_C8_amended_witness :
    presentedCredential envTokenAbc ≠ "" ∧
    (connectAuthRow stNewDemo envTokenAbc).credential =
      "hash_" ++ natToHex (rollingHash (presentedCredential envTokenAbc)).natAbs :=
  ⟨by decide, (claim_C8_amended stNewDemo envTokenAbc (by decide)).1⟩

theorem tickStep_cases (st : TickState) (e : TickEvent) :
    ((tickStep st e).2 = [] ∧ (tickStep st e).1.seq = st.seq) ∨
    (∃ now, e = .fire now ∧ st.timerActive = true ∧ st.isOpen = true ∧
      (tickStep st e).2 = [ generateTickEvent st.seq now ] ∧
      (tickStep st e).1.seq = st.seq + 1) := by
  cases e with
  | fire now =>
      cases h1 : st.timerActive <;> cases h2 : st.isOpen
      · left; simp [tickStep, h1, h2]
      · left; simp [tickStep, h1, h2]
      · left; simp [tickStep, h1, h2]
      · right
        refine ⟨now, rfl, rfl, rfl, ?_, ?_⟩ <;> simp [tickStep, h1, h2]
  | sockNotOpen => left; simp [tickStep]
  | closeEvt => left; simp [tickStep]

theorem runTicks_cons (st : TickState) (e : TickEvent) (es : List TickEvent) :
    runTicks st (e :: es) =
      ((runTicks (tickStep st e).1 es).1,
       (tickStep st e).2 ++ (runTicks (tickStep st e).1 es).2) := rfl

theorem runTicks_append (st : TickState) (es fs : List TickEvent) :
    runTicks st (es ++ fs) =
      ((runTicks (runTicks st es).1 fs).1,
       (runTicks st es).2 ++ (runTicks (runTicks st es).1 fs).2) := by
  induction es generalizing st with
  | nil => simp [runTicks]
  | cons e es ih =>
      rw [List.cons_append, runTicks_cons st e (es ++ fs), ih,
        runTicks_cons st e es]
      simp [List.append_assoc]

theorem runTicks_seq_mono (es : List TickEvent) :
    ∀ st : TickState, st.seq ≤ (runTicks st es).1.seq := by
  induction es with
  | nil => intro st; exact le_refl _
  | cons e es ih =>
      intro st
      show st.seq ≤ (runTicks (tickStep st e).1 es).1.seq
      have h1 : st.seq ≤ (tickStep st e).1.seq := by
        rcases tickStep_cases st e with ⟨_, hs⟩ | ⟨now, _, _, _, _, hs⟩ <;> omega
      exact le_trans h1 (ih _)

theorem runTicks_frames_bounds (es : List TickEvent) :
    ∀ (st : TickState) (f : TickFrame), f ∈ (runTicks st es).2 →
      st.seq ≤ f.seq ∧ f.seq < (runTicks st es).1.seq := by
  induction es with
  | nil => intro st f hf; simp [runTicks] at hf
  | cons e es ih =>
      intro st f hf
      have hf2 : f ∈ (tickStep st e).2 ++ (runTicks (tickStep st e).1 es).2 := hf
      have hgoal : (runTicks st (e :: es)).1 = (runTicks (tickStep st e).1 es).1 := rfl
      rw [hgoal]
      have h1 : st.seq ≤ (tickStep st e).1.seq := by
        rcases tickStep_cases st e with ⟨_, hs⟩ | ⟨now, _, _, _, _, hs⟩ <;> omega
      rcases List.mem_append.mp hf2 with hin | hin
      · rcases tickStep_cases st e with ⟨hout, hs⟩ | ⟨now, _, _, _, hout, hs⟩
        · rw [hout] at hin; simp at hin
        · rw [hout] at hin
          simp at hin
          subst hin
          have hm := runTicks_seq_mono es (tickStep st e).1
          simp only [generateTickEvent]
          exact ⟨le_refl _, by omega⟩
      · have hb := ih _ f hin
        exact ⟨le_trans h1 hb.1, hb.2⟩

theorem runTicks_chain (es : List TickEvent) :
    ∀ st : TickState,
      List.Chain' (fun a b => a.seq < b.seq) (runTicks st es).2 := by
  induction es with
  | nil => intro st; simp [runTicks]
  | cons e es ih =>
      intro st
      have hR : (runTicks st (e :: es)).2 =
          (tickStep st e).2 ++ (runTicks (tickStep st e).1 es).2 := rfl
      rw [hR]
      rcases tickStep_cases st e with ⟨hout, hs⟩ | ⟨now, he, _, _, hout, hs⟩
      · rw [hout]; simpa using ih _
      · rw [hout, List.singleton_append]
        refine List.chain'_cons'.mpr ⟨?_, ih _⟩
        intro b hb
        have hmem : b ∈ (runTicks (tickStep st e).1 es).2 := List.mem_of_mem_head? hb
        have hb2 := runTicks_frames_bounds es (tickStep st e).1 b hmem
        simp only [generateTickEvent]
        omega

theorem runTicks_inactive (es : List TickEvent) :
    ∀ st : TickState, st.timerActive = false →
      (runTicks st es).2 = [] ∧ (runTicks st es).1.timerActive = false := by
  induction es with
  | nil => intro st h; exact ⟨rfl, h⟩
  | cons e es ih =>
      intro st h
      have hstep : (tickStep st e).2 = [] ∧ (tickStep st e).1.timerActive = false := by
        cases e with
        | fire now => simp [tickStep, h]
        | sockNotOpen => simp [tickStep, h]
        | closeEvt => simp [tickStep]
      have hR : (runTicks st (e :: es)).2 =
          (tickStep st e).2 ++ (runTicks (tickStep st e).1 es).2 := rfl
      have h1 : (runTicks st (e :: es)).1 = (runTicks (tickStep st e).1 es).1 := rfl
      have ihr := ih _ hstep.2
      exact ⟨by rw [hR, hstep.1, ihr.1]; rfl, by rw [h1]; exact ihr.2⟩

/-- Claim C9: the tick timer's period constant is 30 000 ms; the interval
callback emits a frame exactly when the timer is installed and the socket
is OPEN, in which case the frame is
`{type: "event", event: "tick", payload: {ts: now}, seq}` with the
connection's current `seq`, which is then incremented; across any event
sequence the emitted `seq` values are strictly increasing; and no frame is
emitted after the close handler has cleared the timer. -/
theorem claim_C9_theorem :
    TICK_INTERVAL_MS = 30000 ∧
    (∀ (st : TickState) (now : Nat),
      ((tickStep st (.fire now)).2 ≠ [] ↔ st.timerActive = true ∧ st.isOpen = true)) ∧
    (∀ (st : TickState) (now : Nat), st.timerActive = true → st.isOpen = true →
      (tickStep st (.fire now)).2 =
        [ { etype := "event", event := "tick", ts := now, seq := st.seq } ] ∧
      (tickStep st (.fire now)).1.seq = st.seq + 1) ∧
    (∀ (st : TickState) (es : List TickEvent),
      List.Chain' (fun a b => a.seq < b.seq) (runTicks st es).2) ∧
    (∀ (st : TickState) (pre post : List TickEvent),
      (runTicks st (pre ++ TickEvent.closeEvt :: post)).2 =
        (runTicks st (pre ++ [ TickEvent.closeEvt ])).2) := by
  refine ⟨rfl, ?_, ?_, ?_, ?_⟩
  · intro st now
    cases h1 : st.timerActive <;> cases h2 : st.isOpen <;>
      simp [tickStep, h1, h2, generateTickEvent]
  · intro st now h1 h2
    simp [tickStep, h1, h2, generateTickEvent]
  · intro st es
    exact runTicks_chain es st
  · intro st pre post
    have key : ∀ s : TickState, (runTicks s (TickEvent.closeEvt :: post)).2 = [] := by
      intro s
      have h := runTicks_inactive post (tickStep s .closeEvt).1 (by simp [tickStep])
      have hR : (runTicks s (TickEvent.closeEvt :: post)).2 =
          (tickStep s .closeEvt).2 ++ (runTicks (tickStep s .closeEvt).1 post).2 := rfl
      rw [hR, h.1]
      simp [tickStep]
    have key2 : ∀ s : TickState, (runTicks s [ TickEvent.closeEvt ]).2 = [] := by
      intro s; simp [runTicks, tickStep]
    rw [runTicks_append, runTicks_append, key, key2]

/-- Witness for C9: an installed timer on an open socket emits the tick
frame carrying the current seq. -/
theorem claim_C9_witness :
    (tickStep { seq := 0, isOpen := true, timerActive := true } (.fire 42)).2 =
      [ { etype := "event", event := "tick", ts := 42, seq := 0 } ] :=
  (claim_C9_theorem.2.2.1 { seq := 0, isOpen := true, timerActive := true } 42
    rfl rfl).1

theorem sessionWrites_append (a b : List DbWrite) :
    sessionWrites (a ++ b) = sessionWrites a ++ sessionWrites b := by
  simp [sessionWrites]

theorem pm_badJson_okStore (handlers : String → Option Handler)
    (test : String → String → Bool) (freshTok : String) (now : Nat)
    (st : ClientState) (raw : String) :
    sessionWrites (processMessage okStore handlers test freshTok now st
      (.badJson raw)).writes = [] ∧
    (processMessage okStore handlers test freshTok now st (.badJson raw)).state = st := by
  simp [processMessage, logOnlyOutcome, okStore, sessionWrites]

theorem pm_json_new_okStore (handlers : String → Option Handler)
    (test : String → String → Bool) (freshTok : String) (now : Nat)
    (st : ClientState) (env : ConnectEnvelope) (fr : Option ParsedFrame)
    (raw : String) (h : st.authenticated = false) :
    sessionWrites (processMessage okStore handlers test freshTok now st
      (.json env fr raw)).writes = [ { incrementAuthAttempts := true } ] ∧
    (processMessage okStore handlers test freshTok now st
      (.json env fr raw)).state.authenticated = true := by
  simp [processMessage, h, handleConnectM, okStore, sessionWrites]

theorem pm_json_auth_okStore (handlers : String → Option Handler)
    (test : String → String → Bool) (freshTok : String) (now : Nat)
    (st : ClientState) (env : ConnectEnvelope) (fr : Option ParsedFrame)
    (raw : String) (h : st.authenticated = true) :
    sessionWrites (processMessage okStore handlers test freshTok now st
      (.json env fr raw)).writes = [] ∧
    (processMessage okStore handlers test freshTok now st
      (.json env fr raw)).state = st := by
  cases fr with
  | none => simp [processMessage, h, logOnlyOutcome, okStore, sessionWrites]
  | some pf =>
      cases pf with
      | request rid rmethod =>
          simp [processMessage, h, handleRequestFrameM, okStore, sessionWrites]
      | nonRequest t =>
          simp [processMessage, h, logOnlyOutcome, okStore, sessionWrites]

theorem serveMsgs_cons_writes (store : Store) (handlers : String → Option Handler)
    (test : String → String → Bool) (freshTok : String) (now : Nat)
    (st : ClientState) (m : InMsg) (ms : List InMsg) :
    (serveMsgs store handlers test freshTok now st (m :: ms)).2.2 =
      (processMessage store handlers test freshTok now st m).writes ++
      (serveMsgs store handlers test freshTok now
        (processMessage store handlers test freshTok now st m).state ms).2.2 := rfl

theorem serveMsgs_sessionWrites (handlers : String → Option Handler)
    (test : String → String → Bool) (freshTok : String) (now : Nat)
    (msgs : List InMsg) :
    ∀ st : ClientState,
      sessionWrites (serveMsgs okStore handlers test freshTok now st msgs).2.2 =
        (if st.authenticated = true then []
         else if msgs.any isJsonMsg then [ { incrementAuthAttempts := true } ]
         else []) := by
  induction msgs with
  | nil =>
      intro st
      cases h : st.authenticated <;> simp [serveMsgs, sessionWrites, h]
  | cons m ms ih =>
      intro st
      rw [serveMsgs_cons_writes, sessionWrites_append]
      cases m with
      | badJson raw =>
          rcases pm_badJson_okStore handlers test freshTok now st raw with ⟨hw, hstate⟩
          rw [hw, hstate, ih st]
          simp [isJsonMsg]
      | json env fr raw =>
          cases h : st.authenticated with
          | false =>
              rcases pm_json_new_okStore handlers test freshTok now st env fr raw h
                with ⟨hw, hstate⟩
              rw [hw, ih _, hstate]
              simp [h, isJsonMsg]
          | true =>
              rcases pm_json_auth_okStore handlers test freshTok now st env fr raw h
                with ⟨hw, hstate⟩
              rw [hw, hstate, ih st]
              simp [h]

/-- Claim C10: over a whole connection with a working store, the attacker
session receives exactly one `incrementWsMessages` touch (at connection
open), exactly one `incrementAuthAttempts` touch when some message parses
as JSON (the connect envelope) and none otherwise, and no request or
suspicious counter touches — however many request frames follow the
handshake. -/
theorem claim_C10_theorem (handlers : String → Option Handler)
    (test : String → String → Bool) (freshTok : String) (now : Nat)
    (connId dbId ip : String) (msgs : List InMsg) :
    wsConnectionSessionWrites handlers test freshTok now connId dbId ip msgs =
      { incrementWsMessages := true } ::
        (if msgs.any isJsonMsg then [ { incrementAuthAttempts := true } ] else []) ∧
    (wsConnectionSessionWrites handlers test freshTok now connId dbId ip msgs).countP
      (fun u => u.incrementWsMessages) = 1 ∧
    (wsConnectionSessionWrites handlers test freshTok now connId dbId ip msgs).countP
      (fun u => u.incrementRequests) = 0 ∧
    (wsConnectionSessionWrites handlers test freshTok now connId dbId ip msgs).countP
      (fun u => u.incrementSuspicious) = 0 := by
  have hopen : openConnection okStore connId dbId ip =
      ({ connId := connId, dbConnectionId := dbId, ipAddress := ip,
         authenticated := false, clientId := none },
       [ DbWrite.connection ip "websocket",
         DbWrite.session { incrementWsMessages := true } ]) := by
    simp [openConnection, okStore]
  have hmain : wsConnectionSessionWrites handlers test freshTok now connId dbId ip msgs =
      { incrementWsMessages := true } ::
        (if msgs.any isJsonMsg then [ { incrementAuthAttempts := true } ] else []) := by
    unfold wsConnectionSessionWrites runConnection
    rw [hopen]
    rw [show sessionWrites
        ([ DbWrite.connection ip "websocket",
           DbWrite.session { incrementWsMessages := true } ] ++
          (serveMsgs okStore handlers test freshTok now
            { connId := connId, dbConnectionId := dbId, ipAddress := ip,
              authenticated := false, clientId := none } msgs).2.2) =
        sessionWrites [ DbWrite.connection ip "websocket",
           DbWrite.session { incrementWsMessages := true } ] ++
        sessionWrites (serveMsgs okStore handlers test freshTok now
            { connId := connId, dbConnectionId := dbId, ipAddress := ip,
              authenticated := false, clientId := none } msgs).2.2
      from sessionWrites_append _ _]
    rw [serveMsgs_sessionWrites handlers test freshTok now msgs]
    simp [sessionWrites]
  refine ⟨hmain, ?_, ?_, ?_⟩ <;> rw [hmain] <;>
    cases h : msgs.any isJsonMsg <;> simp [h, List.countP_cons, List.countP_nil]
